import Mathlib

/-!
Verification of the shared playback/control state of the `reh` audio player
(src/main.rs) against its specification.

Modelling conventions:
* `f32` sample values and parameters are idealised as `ℚ`; the Rust cast
  `as usize` of a non-negative float is `Int.toNat ∘ Int.floor` (for negative
  values Rust saturates to 0, which `Int.toNat` also yields).
* The real-time render callback (main.rs lines 169-219) is a pure function
  from the shared `AudioControls` state, the locally drained `local_speed` /
  `local_pitch` parameters, and the output-buffer length, to the produced
  output buffer together with the updated state.
* The per-channel `signalsmith_stretch::Stretch::process` call is an external
  library; it is abstracted as a function parameter `proc` taking the channel
  index, the transpose factor, the extracted mono input window and the output
  frame count.  No claim depends on its values.
* The decode worker (main.rs lines 87-152) is driven by an abstract
  `LoadOutcome` describing which of its fallible steps fails; the `Bool` in
  the result records whether the worker thread panicked (the `unwrap` on
  codec creation at line 118).
-/

namespace Reh

/-- Shared state touched by the render callback: mirrors the `AudioControls`
struct of main.rs (lines 22-33).  The `speed`/`pitch` atomics are UI-side
mirrors never read by the render path (which uses the channel-delivered
`local_speed`/`local_pitch`), so they are omitted here. -/
structure AudioControls where
  volume : ℚ
  cursor : Nat
  loop_start : Nat
  loop_end : Nat
  is_playing : Bool
  is_loading : Bool
  is_seeking : Bool
  pcm_data : List ℚ
deriving DecidableEq

/-- Lines 197-199 of main.rs: `stretch_ratio = 1.0 / local_speed` and
`input_frames_needed = (output_frames as f32 / stretch_ratio) as usize`.
The `as usize` cast truncates (floor for the non-negative values arising
here, saturating to 0 on negatives). -/
def inputFramesNeeded (local_speed : ℚ) (output_frames : Nat) : Nat :=
  let sr : ℚ := 1 / local_speed
  (⌊(output_frames : ℚ) / sr⌋).toNat

/-- Lines 202-203 of main.rs: wrap the active read position back to
`loop_start` when the cursor has reached `loop_end` and a loop is set. -/
def activeCursor (cursor l_start l_end : Nat) : Nat :=
  if l_end ≤ cursor ∧ l_start < l_end then l_start else cursor

/-- Lines 207-209 of main.rs: the mono input window extracted for channel
`ch`, reading `pcm[active + i * channels + ch]` for `i < n` (channels = 2). -/
def channelInput (pcm : List ℚ) (active n ch : Nat) : List ℚ :=
  (List.range n).map fun i => pcm.getD (active + i * 2 + ch) 0

/-- The render callback, main.rs lines 169-219 (after draining the parameter
channel into `local_speed`/`local_pitch`).  Returns the output buffer and the
updated shared state.  Positions `≥ output_frames * 2` of the data buffer (at
most one, when `dataLen` is odd) are untouched by the Rust code in the play
branch; they are modelled as 0 and no claim depends on them. -/
def render (proc : Nat → ℚ → List ℚ → Nat → List ℚ)
    (local_speed local_pitch : ℚ) (c : AudioControls) (dataLen : Nat) :
    List ℚ × AudioControls :=
  if !c.is_playing || c.is_loading || c.is_seeking then
    (List.replicate dataLen 0, c)
  else if c.pcm_data.isEmpty then
    (List.replicate dataLen 0, c)
  else
    let channels := 2
    let output_frames := dataLen / channels
    let n := inputFramesNeeded local_speed output_frames
    if c.cursor + n * channels < c.pcm_data.length ∧ n < 8192 then
      let active := activeCursor c.cursor c.loop_start c.loop_end
      let data := (List.range dataLen).map fun j =>
        if j < output_frames * channels then
          (proc (j % channels) local_pitch
              (channelInput c.pcm_data active n (j % channels))
              output_frames).getD (j / channels) 0 * c.volume
        else 0
      (data, { c with cursor := active + n * channels })
    else
      (List.replicate dataLen 0, c)

/-- Whether the call reaches the playing branch (line 201 guard passes and
none of the early silence returns of lines 177-189 fire). -/
def takesPlayBranch (local_speed : ℚ) (c : AudioControls) (dataLen : Nat) : Bool :=
  c.is_playing && !c.is_loading && !c.is_seeking && !c.pcm_data.isEmpty &&
    (let n := inputFramesNeeded local_speed (dataLen / 2)
     decide (c.cursor + n * 2 < c.pcm_data.length) && decide (n < 8192))

/-- In the play branch, line 210 of main.rs takes the slice
`&mut output_scratch[..output_frames]` of the fixed 8192-element scratch
buffer, which is in bounds exactly when `output_frames = dataLen / 2 ≤ 8192`
(lines 212-213 then index `output_scratch[i]` for `i < output_frames`). -/
def outputScratchIndexOk (local_speed : ℚ) (c : AudioControls) (dataLen : Nat) : Prop :=
  takesPlayBranch local_speed c dataLen = true → dataLen / 2 ≤ 8192

/-- Rounding to the nearest integer (round half away from zero on the
non-negative values in question), the operation the specification claims for
`inputFramesNeeded`.  Written from the spec's words, for comparison with the
source's truncating cast. -/
def roundNearest (q : ℚ) : ℤ := ⌊q + 1/2⌋

/-- Line 130 of main.rs: `chunk_size = (pcm.len() / 1000).max(1)`. -/
def chunkSize (len : Nat) : Nat := max (len / 1000) 1

/-- Number of chunks produced by Rust's `pcm.chunks(chunk_size)`:
`⌈len / chunk_size⌉`. -/
def numChunks (len : Nat) : Nat := (len + (chunkSize len - 1)) / chunkSize len

/-- The `i`-th chunk of the PCM buffer, as yielded by `pcm.chunks(chunk_size)`
in line 131 of main.rs. -/
def chunkOf (pcm : List ℚ) (i : Nat) : List ℚ :=
  (pcm.drop (i * chunkSize pcm.length)).take (chunkSize pcm.length)

/-- Line 132 of main.rs: `chunk.iter().fold(0.0f32, |a, &b| a.max(b.abs()))`. -/
def peakOf (chunk : List ℚ) : ℚ := chunk.foldl (fun a b => max a |b|) 0

/-- Lines 129-133 of main.rs: the waveform summary, one peak per chunk. -/
def waveformOf (pcm : List ℚ) : List ℚ :=
  (List.range (numChunks pcm.length)).map fun i => peakOf (chunkOf pcm i)

/-- The one-shot GUI state published for display, mirroring `AppState` of
main.rs lines 14-20. -/
structure AppState where
  file_path : String
  total_samples : Nat
  sample_rate : Nat
  channels : Nat
  waveform : List ℚ
deriving DecidableEq

/-- Outcome of the fallible steps of the decode worker (main.rs lines
87-151): the path does not exist (line 88), `File::open` fails (line 99),
format probing fails (line 108), there is no default track (line 112), codec
creation fails (line 118), or decoding succeeds with the given per-packet
results (`none` = packet decode error, skipped by line 122), sample rate and
channel count. -/
inductive LoadOutcome where
  | pathMissing
  | openError
  | probeError
  | noTrack
  | codecError
  | decoded (packets : List (Option (List ℚ))) (rate : Option Nat) (chans : Option Nat)
deriving DecidableEq

/-- The load pipeline of main.rs lines 87-151, as the net effect on the GUI
state and the shared controls.  The returned `Bool` records whether the
worker thread panicked: the only panic is the `unwrap` on
`get_codecs().make(..)` at line 118, reached after `is_loading` was set and
the file path published (lines 92-96), so on that outcome the shared state is
left with `is_loading = true` forever (the thread dies; the process itself
keeps running). -/
def loadAudioFile (path : String) (outcome : LoadOutcome)
    (s : AppState) (c : AudioControls) : (AppState × AudioControls) × Bool :=
  match outcome with
  | .pathMissing => ((s, c), false)
  | .openError =>
      (({ s with file_path := path }, { c with is_loading := false }), false)
  | .probeError =>
      (({ s with file_path := path }, { c with is_loading := false }), false)
  | .noTrack =>
      (({ s with file_path := path }, { c with is_loading := false }), false)
  | .codecError =>
      (({ s with file_path := path }, { c with is_loading := true }), true)
  | .decoded packets rate chans =>
      let pcm := (packets.filterMap id).flatten
      let total := pcm.length
      (({ file_path := path, total_samples := total,
          sample_rate := rate.getD 44100, channels := chans.getD 2,
          waveform := waveformOf pcm },
        { c with cursor := 0, loop_start := 0, loop_end := total,
                 is_loading := false, pcm_data := pcm }), false)

/-- The loop bounds written by the control surface. -/
structure LoopBounds where
  loop_start : Nat
  loop_end : Nat
deriving DecidableEq

/-- Lines 261 and 419 of main.rs: `loop_start.store(cursor)`. -/
def setLoopStart (cursor : Nat) (st : LoopBounds) : LoopBounds :=
  { st with loop_start := cursor }

/-- Lines 264 and 420 of main.rs: `loop_end.store(cursor)`. -/
def setLoopEnd (cursor : Nat) (st : LoopBounds) : LoopBounds :=
  { st with loop_end := cursor }

/-- Lines 254-257 and 421-424 of main.rs: clear the loop to `[0, total]`. -/
def clearLoop (total : Nat) (_st : LoopBounds) : LoopBounds :=
  { loop_start := 0, loop_end := total }

/-- Lines 272-276 of main.rs: shift the loop window left by
`min(loop_start, width)`. -/
def loopShiftLeft (st : LoopBounds) : LoopBounds :=
  let width := st.loop_end - st.loop_start
  let shift := min st.loop_start width
  { loop_start := st.loop_start - shift, loop_end := st.loop_end - shift }

/-- Lines 277-281 of main.rs: shift the loop window right by
`min(total - loop_end, width)` (saturating subtraction, as in the source). -/
def loopShiftRight (total : Nat) (st : LoopBounds) : LoopBounds :=
  let width := st.loop_end - st.loop_start
  let shift := min (total - st.loop_end) width
  { loop_start := st.loop_start + shift, loop_end := st.loop_end + shift }

/-- The loop-bounds invariant claimed by the specification:
`0 ≤ loopStart ≤ loopEnd ≤ total` (the lower bound is automatic on `Nat`). -/
def loopInv (total : Nat) (st : LoopBounds) : Prop :=
  st.loop_start ≤ st.loop_end ∧ st.loop_end ≤ total

instance (total : Nat) (st : LoopBounds) : Decidable (loopInv total st) := by
  unfold loopInv; infer_instance

/-- Lines 328-329 (click) and 336-337 with 354 (drag) of main.rs: the cursor
value stored by a seek at fractional position `p`, namely
`val = (p.clamp(0,1) * total) as usize` aligned down by
`val - val % channels.max(1)`. -/
def seekTarget (p : ℚ) (total channels : Nat) : Nat :=
  let val := (⌊(min (max p 0) 1) * (total : ℚ)⌋).toNat
  val - val % (max channels 1)

/-- A placeholder stretcher used to instantiate the abstract `proc` parameter
at concrete inputs (the claims settled on concrete states are independent of
the stretcher's output). -/
def dummyProc : Nat → ℚ → List ℚ → Nat → List ℚ := fun _ _ _ _ => []

/-- A paused state with a non-empty buffer. -/
def muteState : AudioControls :=
  { volume := 1, cursor := 0, loop_start := 0, loop_end := 2,
    is_playing := false, is_loading := false, is_seeking := false,
    pcm_data := [1, 1] }

/-- A playing state whose cursor (6) is past the loop end (4) but too close
to the end of the 10-sample buffer for a 4-frame stereo read. -/
def c2state : AudioControls :=
  { volume := 1, cursor := 6, loop_start := 0, loop_end := 4,
    is_playing := true, is_loading := false, is_seeking := false,
    pcm_data := [0, 0, 0, 0, 0, 0, 0, 0, 0, 0] }

/-- A playing state with the loop wrap about to fire and plenty of samples:
cursor 4 is at the loop end 4, buffer holds 12 samples. -/
def c2wit : AudioControls :=
  { volume := 1, cursor := 4, loop_start := 0, loop_end := 4,
    is_playing := true, is_loading := false, is_seeking := false,
    pcm_data := [0, 0, 0, 0, 0, 0, 0, 0, 0, 0, 0, 0] }

/-- A playing state with no loop restriction and 9 samples. -/
def c6state : AudioControls :=
  { volume := 1, cursor := 0, loop_start := 0, loop_end := 0,
    is_playing := true, is_loading := false, is_seeking := false,
    pcm_data := [0, 0, 0, 0, 0, 0, 0, 0, 0] }

/-- A playing state with a tiny 3-sample buffer. -/
def c9state : AudioControls :=
  { volume := 1, cursor := 0, loop_start := 0, loop_end := 0,
    is_playing := true, is_loading := false, is_seeking := false,
    pcm_data := [0, 0, 0] }

/-- A playing state whose remaining samples (8 from cursor 0) exactly equal
the stereo input demand of a 4-frame window at speed 1. -/
def c10state : AudioControls :=
  { volume := 1, cursor := 0, loop_start := 0, loop_end := 8,
    is_playing := true, is_loading := false, is_seeking := false,
    pcm_data := [0, 0, 0, 0, 0, 0, 0, 0] }

/-- The file path published before a load and the one of the failing load. -/
def oldPath : String := "old.wav"

/-- The path of the file whose load fails. -/
def newPath : String := "new.wav"

/-- Previously published GUI state before the failing load. -/
def s4 : AppState :=
  { file_path := oldPath, total_samples := 4, sample_rate := 44100,
    channels := 2, waveform := [] }

/-- Previously published shared controls before the failing load. -/
def c4 : AudioControls :=
  { volume := 1, cursor := 0, loop_start := 0, loop_end := 4,
    is_playing := true, is_loading := false, is_seeking := false,
    pcm_data := [1, 1, 1, 1] }

/-- A small buffer for the waveform witness: three samples, chunk size 1. -/
def pcm5 : List ℚ := [1/2, -2, 1]

/-! ## Helper lemmas -/

theorem inputFramesNeeded_eq (s : ℚ) (out : Nat) :
    inputFramesNeeded s out = (⌊(out : ℚ) * s⌋).toNat := by
  simp only [inputFramesNeeded, one_div, div_inv_eq_mul]

theorem inputFramesNeeded_one (out : Nat) : inputFramesNeeded 1 out = out := by
  rw [inputFramesNeeded_eq, mul_one, Int.floor_natCast, Int.toNat_natCast]

theorem inputFramesNeeded_two (out : Nat) : inputFramesNeeded 2 out = 2 * out := by
  rw [inputFramesNeeded_eq]
  have h : ((out : ℚ)) * 2 = ((2 * out : ℕ) : ℚ) := by push_cast; ring
  rw [h, Int.floor_natCast, Int.toNat_natCast]

/-- In the play branch the render call returns the state with the cursor
advanced from the wrapped active position by `inputFramesNeeded × 2`. -/
theorem render_play (proc : Nat → ℚ → List ℚ → Nat → List ℚ) (s p : ℚ)
    (c : AudioControls) (dataLen : Nat)
    (hp : c.is_playing = true) (hl : c.is_loading = false) (hs : c.is_seeking = false)
    (hne : c.pcm_data ≠ [])
    (hg : c.cursor + inputFramesNeeded s (dataLen / 2) * 2 < c.pcm_data.length)
    (hb : inputFramesNeeded s (dataLen / 2) < 8192) :
    (render proc s p c dataLen).2 =
      { c with cursor := activeCursor c.cursor c.loop_start c.loop_end
          + inputFramesNeeded s (dataLen / 2) * 2 } := by
  have hne' : c.pcm_data.isEmpty = false := by simp [List.isEmpty_iff, hne]
  simp [render, hp, hl, hs, hne', hg, hb]

/-- If the sample-sufficiency guard of line 201 fails, the call emits silence
and leaves the shared state untouched (this also covers the muted and empty
cases, where the same silent output and unchanged state are produced). -/
theorem render_silent_of_guard_failed (proc : Nat → ℚ → List ℚ → Nat → List ℚ)
    (s p : ℚ) (c : AudioControls) (dataLen : Nat)
    (h : ¬ (c.cursor + inputFramesNeeded s (dataLen / 2) * 2 < c.pcm_data.length ∧
        inputFramesNeeded s (dataLen / 2) < 8192)) :
    render proc s p c dataLen = (List.replicate dataLen 0, c) := by
  unfold render
  split
  · rfl
  · split
    · rfl
    · simp [h]

theorem le_foldl_max (l : List ℚ) (a : ℚ) :
    a ≤ l.foldl (fun x b => max x |b|) a := by
  induction l generalizing a with
  | nil => simp
  | cons b t ih =>
      simp only [List.foldl_cons]
      exact le_trans (le_max_left a |b|) (ih (max a |b|))

theorem foldl_max_abs_le (l : List ℚ) :
    ∀ (a x : ℚ), x ∈ l → |x| ≤ l.foldl (fun y b => max y |b|) a := by
  induction l with
  | nil => intro a x hx; cases hx
  | cons b t ih =>
      intro a x hx
      simp only [List.foldl_cons]
      rcases List.mem_cons.1 hx with rfl | hx
      · exact le_trans (le_max_right a |x|) (le_foldl_max t (max a |x|))
      · exact ih (max a |b|) x hx

theorem foldl_max_abs_attained (l : List ℚ) (a : ℚ) :
    l.foldl (fun y b => max y |b|) a = a ∨
      ∃ x ∈ l, l.foldl (fun y b => max y |b|) a = |x| := by
  induction l generalizing a with
  | nil => exact Or.inl rfl
  | cons b t ih =>
      simp only [List.foldl_cons]
      rcases ih (max a |b|) with h | ⟨x, hx, hfx⟩
      · rcases le_total a |b| with hab | hab
        · exact Or.inr ⟨b, List.mem_cons_self b t, by rw [h, max_eq_right hab]⟩
        · exact Or.inl (by rw [h, max_eq_left hab])
      · exact Or.inr ⟨x, List.mem_cons_of_mem b hx, hfx⟩

theorem numChunks_of_le_1000 (len : Nat) (h : len ≤ 1000) : numChunks len = len := by
  have hcs : chunkSize len = 1 := by
    unfold chunkSize
    have h0 : len / 1000 = 0 ∨ len / 1000 = 1 := by omega
    rcases h0 with h0 | h0
    · rw [h0]; exact max_eq_right (by norm_num)
    · rw [h0]; exact max_self 1
  unfold numChunks
  rw [hcs]
  simp

/-! ## Claim theorems -/

/-- C1: whenever `is_playing` is false, or `is_loading` is true, or
`is_seeking` is true, the render callback fills the whole output buffer with
zeros and returns with the shared state (cursor included) untouched, for
every output buffer length, speed, pitch and stretcher. -/
theorem mute_renders_silence (proc : Nat → ℚ → List ℚ → Nat → List ℚ)
    (s p : ℚ) (c : AudioControls) (dataLen : Nat)
    (h : c.is_playing = false ∨ c.is_loading = true ∨ c.is_seeking = true) :
    render proc s p c dataLen = (List.replicate dataLen 0, c) := by
  unfold render
  rcases h with h | h | h <;> simp [h]

/-- Witness for C1: a paused state renders a 64-sample buffer of silence. -/
theorem mute_renders_silence_witness :
    (muteState.is_playing = false ∨ muteState.is_loading = true ∨
      muteState.is_seeking = true) ∧
    render dummyProc 1 1 muteState 64 = (List.replicate 64 0, muteState) :=
  ⟨Or.inl rfl, mute_renders_silence dummyProc 1 1 muteState 64 (Or.inl rfl)⟩

/-- C10: whenever the playing render call fails the sample-sufficiency guard
of line 201 — which, the comparison being strict, includes the case where the
remaining samples from the cursor exactly equal
`inputFramesNeeded × channelCount` — the output is silence and the entire
shared state (cursor, loop bounds, flags, buffer) is returned unchanged, so
the same call keeps producing silence with no auto-pause or rewind. -/
theorem insufficient_samples_silent_unchanged
    (proc : Nat → ℚ → List ℚ → Nat → List ℚ) (s p : ℚ)
    (c : AudioControls) (dataLen : Nat)
    (_hp : c.is_playing = true) (_hl : c.is_loading = false)
    (_hs : c.is_seeking = false) (_hne : c.pcm_data ≠ [])
    (hguard : c.pcm_data.length ≤ c.cursor + inputFramesNeeded s (dataLen / 2) * 2) :
    render proc s p c dataLen = (List.replicate dataLen 0, c) :=
  render_silent_of_guard_failed proc s p c dataLen (by rintro ⟨h1, _⟩; omega)

/-- Witness for C10: remaining samples (8) exactly equal the demand
(4 frames × 2 channels) at speed 1 and the call is silent and state
preserving. -/
theorem insufficient_samples_witness :
    c10state.pcm_data.length = c10state.cursor + inputFramesNeeded 1 (8 / 2) * 2 ∧
    render dummyProc 1 1 c10state 8 = (List.replicate 8 0, c10state) :=
  ⟨by simp [c10state, inputFramesNeeded_one],
   insufficient_samples_silent_unchanged dummyProc 1 1 c10state 8 rfl rfl rfl
     (by simp [c10state])
     (by simp [c10state, inputFramesNeeded_one])⟩

/-- C9 (amended): when `inputFramesNeeded ≥ 8192` the call is silent and
state preserving even if the buffer has enough samples, and in the play
branch every index into the 8192-element input scratch is in bounds; but the
guard bounds only the input side — indices into the output scratch are in
bounds only when `outputFrames = dataLen / 2 ≤ 8192`, which the guard does
not check. -/
theorem scratch_guard_amended (proc : Nat → ℚ → List ℚ → Nat → List ℚ)
    (s p : ℚ) (c : AudioControls) (dataLen : Nat) :
    (8192 ≤ inputFramesNeeded s (dataLen / 2) →
      render proc s p c dataLen = (List.replicate dataLen 0, c)) ∧
    (takesPlayBranch s c dataLen = true →
      ∀ i, i < inputFramesNeeded s (dataLen / 2) → i < 8192) ∧
    (dataLen / 2 ≤ 8192 → outputScratchIndexOk s c dataLen) := by
  refine ⟨?_, ?_, ?_⟩
  · intro h8
    exact render_silent_of_guard_failed proc s p c dataLen (by rintro ⟨_, h⟩; omega)
  · intro hb i hi
    have hlt : inputFramesNeeded s (dataLen / 2) < 8192 := by
      simp only [takesPlayBranch, Bool.and_eq_true, decide_eq_true_eq] at hb
      exact hb.2.2
    omega
  · intro h _
    exact h

/-- Witness for C9: at speed 1 and a 16384-sample output buffer the demand is
exactly 8192 input frames and the call degrades to silence. -/
theorem scratch_guard_witness :
    8192 ≤ inputFramesNeeded 1 (16384 / 2) ∧
    render dummyProc 1 1 c9state 16384 = (List.replicate 16384 0, c9state) :=
  ⟨by simp [inputFramesNeeded_one],
   (scratch_guard_amended dummyProc 1 1 c9state 16384).1
     (by simp [inputFramesNeeded_one])⟩

/-- C9 counterexample: the guard does not keep the output scratch in bounds.
At speed 1/10000 over a 20000-sample device buffer with a 3-sample PCM
buffer, the play branch is reached (1 input frame is needed and available)
while `output_frames = 10000 > 8192`, so line 210's
`&mut output_scratch[..output_frames]` indexes the 8192-element scratch out
of bounds. -/
theorem scratch_guard_counterexample :
    ¬ outputScratchIndexOk (1/10000) c9state 20000 := by
  intro h
  have hn : inputFramesNeeded ((10000 : ℚ)⁻¹) 10000 = 1 := by
    rw [inputFramesNeeded_eq]
    have h1 : ((10000 : ℕ) : ℚ) * (10000 : ℚ)⁻¹ = 1 := by norm_num
    rw [h1, Int.floor_one]
    rfl
  have hb : takesPlayBranch (1/10000) c9state 20000 = true := by
    simp [takesPlayBranch, c9state, hn]
  exact absurd (h hb) (by omega)

/-- C2 (amended): in a playing render call with `loopEnd > loopStart`, the
cursor at or past `loopEnd`, *the line-201 sufficiency guard passing*
(`cursor + inputFramesNeeded × 2 < totalSamples` and
`inputFramesNeeded < 8192`), *and `outputFrames = dataLen / 2 ≤ 8192`* — the
last bound keeps the call inside the region where line 210's
`output_scratch[..output_frames]` slice is in bounds, so the Rust call runs
to the cursor store instead of panicking (outside it the program dies before
line 216, see the C9 counterexample) — the active read position — the base
index of every `channelInput` read — is `loopStart`, and the stored cursor
after the call is `loopStart + inputFramesNeeded × channelCount`.  (The
original claim omitted the guard; see the counterexample.) -/
theorem loop_wrap_amended (proc : Nat → ℚ → List ℚ → Nat → List ℚ)
    (s p : ℚ) (c : AudioControls) (dataLen : Nat)
    (hp : c.is_playing = true) (hl : c.is_loading = false)
    (hs : c.is_seeking = false) (hne : c.pcm_data ≠ [])
    (hloop : c.loop_start < c.loop_end) (hcur : c.loop_end ≤ c.cursor)
    (hg : c.cursor + inputFramesNeeded s (dataLen / 2) * 2 < c.pcm_data.length)
    (hb : inputFramesNeeded s (dataLen / 2) < 8192)
    (_hof : dataLen / 2 ≤ 8192) :
    activeCursor c.cursor c.loop_start c.loop_end = c.loop_start ∧
    (render proc s p c dataLen).2.cursor =
      c.loop_start + inputFramesNeeded s (dataLen / 2) * 2 := by
  have ha : activeCursor c.cursor c.loop_start c.loop_end = c.loop_start := by
    unfold activeCursor
    rw [if_pos ⟨hcur, hloop⟩]
  refine ⟨ha, ?_⟩
  rw [render_play proc s p c dataLen hp hl hs hne hg hb]
  simp [ha]

/-- Witness for C2 (amended): cursor 4 at loop end 4, loop start 0, 12-sample
buffer, speed 1, one output frame (well within the 8192-frame scratch): the
wrapped read starts at 0 and the stored cursor is 0 + 1 × 2. -/
theorem loop_wrap_witness :
    (c2wit.loop_start < c2wit.loop_end ∧ c2wit.loop_end ≤ c2wit.cursor ∧
      c2wit.cursor + inputFramesNeeded 1 (2 / 2) * 2 < c2wit.pcm_data.length ∧
      inputFramesNeeded 1 (2 / 2) < 8192 ∧ 2 / 2 ≤ 8192) ∧
    activeCursor c2wit.cursor c2wit.loop_start c2wit.loop_end = c2wit.loop_start ∧
    (render dummyProc 1 1 c2wit 2).2.cursor =
      c2wit.loop_start + inputFramesNeeded 1 (2 / 2) * 2 :=
  ⟨⟨by simp [c2wit], by simp [c2wit], by simp [c2wit, inputFramesNeeded_one],
      by simp [inputFramesNeeded_one], by omega⟩,
   loop_wrap_amended dummyProc 1 1 c2wit 2 rfl rfl rfl (by simp [c2wit])
     (by simp [c2wit]) (by simp [c2wit])
     (by simp [c2wit, inputFramesNeeded_one])
     (by simp [inputFramesNeeded_one])
     (by omega)⟩

/-- C2 counterexample: the claim as stated fails without the sufficiency
guard.  In `c2state` the loop is `[0, 4)`, playback is active and the cursor
(6) is past the loop end, but only 4 samples remain of the 4-frame stereo
demand, so the call takes the silence branch: the stored cursor stays 6,
while the claim requires `loopStart + inputFramesNeeded × 2 = 8`. -/
theorem loop_wrap_counterexample :
    c2state.is_playing = true ∧ c2state.is_loading = false ∧
    c2state.is_seeking = false ∧
    c2state.loop_start < c2state.loop_end ∧
    c2state.loop_end ≤ c2state.cursor ∧
    (render dummyProc 1 1 c2state 8).2.cursor = 6 ∧
    c2state.loop_start + inputFramesNeeded 1 (8 / 2) * 2 = 8 ∧
    (6 : Nat) ≠ 8 := by
  have hsil := render_silent_of_guard_failed dummyProc 1 1 c2state 8
    (by rintro ⟨h1, _⟩; rw [inputFramesNeeded_one] at h1; simp [c2state] at h1)
  refine ⟨rfl, rfl, rfl, by simp [c2state], by simp [c2state], ?_, ?_, by omega⟩
  · rw [hsil]; rfl
  · simp [c2state, inputFramesNeeded_one]

/-- C6 (amended): with identical `outputFrames` and both calls passing the
guards with no loop wrap, a render call at speed 2.0 consumes exactly twice
the cursor advance (content samples) of the same call at speed 1.0 — i.e. it
halves the wall-clock time needed per unit of content, not the cursor
advance, which doubles. -/
theorem speed_two_doubles_advance (proc : Nat → ℚ → List ℚ → Nat → List ℚ)
    (p : ℚ) (c : AudioControls) (dataLen : Nat)
    (hp : c.is_playing = true) (hl : c.is_loading = false)
    (hs : c.is_seeking = false) (hne : c.pcm_data ≠ [])
    (hnw : c.loop_end ≤ c.loop_start ∨ c.cursor < c.loop_end)
    (hg : c.cursor + 2 * (dataLen / 2) * 2 < c.pcm_data.length)
    (hb : 2 * (dataLen / 2) < 8192) :
    (render proc 2 p c dataLen).2.cursor - c.cursor =
      2 * ((render proc 1 p c dataLen).2.cursor - c.cursor) := by
  have ha : activeCursor c.cursor c.loop_start c.loop_end = c.cursor := by
    unfold activeCursor
    rw [if_neg]
    rintro ⟨h1, h2⟩
    omega
  have h2 := render_play proc 2 p c dataLen hp hl hs hne
    (by rw [inputFramesNeeded_two]; omega) (by rw [inputFramesNeeded_two]; omega)
  have h1 := render_play proc 1 p c dataLen hp hl hs hne
    (by rw [inputFramesNeeded_one]; omega) (by rw [inputFramesNeeded_one]; omega)
  rw [h2, h1]
  simp only [inputFramesNeeded_two, inputFramesNeeded_one, ha]
  omega

/-- Witness for C6 (amended): on `c6state` with a 4-sample output buffer the
speed-2 call advances the cursor by 8 samples, twice the 4 of the speed-1
call. -/
theorem speed_two_doubles_advance_witness :
    (c6state.cursor + 2 * (4 / 2) * 2 < c6state.pcm_data.length ∧
      2 * (4 / 2) < 8192) ∧
    (render dummyProc 2 1 c6state 4).2.cursor - c6state.cursor =
      2 * ((render dummyProc 1 1 c6state 4).2.cursor - c6state.cursor) :=
  ⟨⟨by simp [c6state], by omega⟩,
   speed_two_doubles_advance dummyProc 1 c6state 4 rfl rfl rfl
     (by simp [c6state]) (Or.inl (by simp [c6state]))
     (by simp [c6state]) (by omega)⟩

/-- C6 counterexample: the claim as stated — speed 2.0 *halves* the cursor
advance relative to speed 1.0 — is false: on `c6state` with a 4-sample
output buffer the speed-2 advance is 8 while half the speed-1 advance would
be 2. -/
theorem speed_halves_counterexample :
    (render dummyProc 2 1 c6state 4).2.cursor - c6state.cursor = 8 ∧
    (render dummyProc 1 1 c6state 4).2.cursor - c6state.cursor = 4 ∧
    (8 : Nat) ≠ 4 / 2 := by
  have ha : activeCursor c6state.cursor c6state.loop_start c6state.loop_end
      = c6state.cursor := by
    unfold activeCursor
    rw [if_neg]
    rintro ⟨h1, h2⟩
    simp [c6state] at h1 h2
  have h2 := render_play dummyProc 2 1 c6state 4 rfl rfl rfl (by simp [c6state])
    (by rw [inputFramesNeeded_two]; simp [c6state]) (by rw [inputFramesNeeded_two]; omega)
  have h1 := render_play dummyProc 1 1 c6state 4 rfl rfl rfl (by simp [c6state])
    (by rw [inputFramesNeeded_one]; simp [c6state]) (by rw [inputFramesNeeded_one]; omega)
  rw [h2, h1]
  simp only [inputFramesNeeded_two, inputFramesNeeded_one, ha]
  refine ⟨by simp [c6state], by simp [c6state], by omega⟩

/-- C3 (amended): for every speed `s > 0` the input frame demand is
`⌊outputFrames × s⌋` — the `as usize` cast of
`output_frames as f32 / stretch_ratio` truncates toward zero; it does not
round to the nearest integer. -/
theorem input_frames_truncate (s : ℚ) (_hs : 0 < s) (output_frames : Nat) :
    inputFramesNeeded s output_frames = (⌊(output_frames : ℚ) * s⌋).toNat :=
  inputFramesNeeded_eq s output_frames

/-- Witness for C3 (amended) at speed 3 and 5 output frames. -/
theorem input_frames_truncate_witness :
    (0 : ℚ) < 3 ∧ inputFramesNeeded 3 5 = (⌊((5 : Nat) : ℚ) * 3⌋).toNat :=
  ⟨by norm_num, input_frames_truncate 3 (by norm_num) 5⟩

/-- C3 counterexample: at speed 7/4 and one output frame the code consumes
`⌊7/4⌋ = 1` input frame, while rounding to the nearest integer — what the
claim states — would give `round(1 × 7/4) = 2`. -/
theorem input_frames_round_counterexample :
    inputFramesNeeded (7/4) 1 = 1 ∧
    (roundNearest ((1 : ℚ) * (7/4))).toNat = 2 ∧ (1 : Nat) ≠ 2 := by
  refine ⟨?_, ?_, by omega⟩
  · rw [inputFramesNeeded_eq]
    have h1 : ((1 : ℕ) : ℚ) * (7/4) = 7/4 := by norm_num
    rw [h1]
    have h2 : ⌊(7/4 : ℚ)⌋ = 1 := by
      rw [Int.floor_eq_iff]
      norm_num
    rw [h2]
    rfl
  · unfold roundNearest
    have h1 : (1 : ℚ) * (7/4) + 1/2 = 9/4 := by norm_num
    rw [h1]
    have h2 : ⌊(9/4 : ℚ)⌋ = 2 := by
      rw [Int.floor_eq_iff]
      norm_num
    rw [h2]
    rfl

/-- C4 (amended): open, probe and no-default-track failures leave the sample
buffer, `totalSamples`, waveform and cursor unchanged and clear `isLoading`,
and the worker returns normally; the file-path label, however, is updated to
the new path before the worker even starts (main.rs lines 92-96), and an
unsupported codec panics the worker thread through the `unwrap` of line 118,
leaving `isLoading` stuck at true (the process itself survives, the buffer is
untouched). -/
theorem load_error_amended (path : String) (s : AppState) (c : AudioControls)
    (o : LoadOutcome)
    (h : o = .openError ∨ o = .probeError ∨ o = .noTrack) :
    ((loadAudioFile path o s c).1.1.total_samples = s.total_samples ∧
     (loadAudioFile path o s c).1.1.waveform = s.waveform ∧
     (loadAudioFile path o s c).1.2.pcm_data = c.pcm_data ∧
     (loadAudioFile path o s c).1.2.cursor = c.cursor ∧
     (loadAudioFile path o s c).1.2.is_loading = false ∧
     (loadAudioFile path o s c).1.1.file_path = path ∧
     (loadAudioFile path o s c).2 = false) ∧
    ((loadAudioFile path .codecError s c).2 = true ∧
     (loadAudioFile path .codecError s c).1.2.is_loading = true ∧
     (loadAudioFile path .codecError s c).1.2.pcm_data = c.pcm_data) := by
  rcases h with rfl | rfl | rfl <;>
    exact ⟨⟨rfl, rfl, rfl, rfl, rfl, rfl, rfl⟩, rfl, rfl, rfl⟩

/-- Witness for C4 (amended) at a concrete failing probe over concrete prior
state. -/
theorem load_error_amended_witness :
    (LoadOutcome.probeError = LoadOutcome.openError ∨
      LoadOutcome.probeError = LoadOutcome.probeError ∨
      LoadOutcome.probeError = LoadOutcome.noTrack) ∧
    (((loadAudioFile newPath .probeError s4 c4).1.1.total_samples = s4.total_samples ∧
      (loadAudioFile newPath .probeError s4 c4).1.1.waveform = s4.waveform ∧
      (loadAudioFile newPath .probeError s4 c4).1.2.pcm_data = c4.pcm_data ∧
      (loadAudioFile newPath .probeError s4 c4).1.2.cursor = c4.cursor ∧
      (loadAudioFile newPath .probeError s4 c4).1.2.is_loading = false ∧
      (loadAudioFile newPath .probeError s4 c4).1.1.file_path = newPath ∧
      (loadAudioFile newPath .probeError s4 c4).2 = false) ∧
     ((loadAudioFile newPath .codecError s4 c4).2 = true ∧
      (loadAudioFile newPath .codecError s4 c4).1.2.is_loading = true ∧
      (loadAudioFile newPath .codecError s4 c4).1.2.pcm_data = c4.pcm_data)) :=
  ⟨Or.inr (Or.inl rfl),
   load_error_amended newPath s4 c4 .probeError (Or.inr (Or.inl rfl))⟩

/-- C4 counterexample: the claim says the file-path label is left unchanged
by a recoverable load error and that `isLoading` always returns to false.
Both fail: a probe failure still rewrites the published path (set eagerly at
lines 92-96 before the worker runs), and an unsupported codec panics the
worker (the `unwrap` at line 118), leaving `isLoading` true forever. -/
theorem load_error_counterexample :
    (loadAudioFile newPath .probeError s4 c4).1.1.file_path = newPath ∧
    s4.file_path = oldPath ∧ newPath ≠ oldPath ∧
    (loadAudioFile newPath .codecError s4 c4).2 = true ∧
    (loadAudioFile newPath .codecError s4 c4).1.2.is_loading = true := by
  refine ⟨rfl, rfl, ?_, rfl, rfl⟩
  decide

/-- C5 (amended): the waveform summary has `numChunks` entries, where
`numChunks = ⌈len / max(1, ⌊len/1000⌋)⌉`; this equals `min(1000, len)` only
when `len ≤ 1000` (for larger non-multiples of the chunk size it exceeds
1000 — see the counterexample).  Each entry is the peak of its chunk: an
upper bound of the absolute values of the chunk's samples, and either 0 (the
fold's initial accumulator) or the absolute value of some sample of the
chunk. -/
theorem waveform_amended (pcm : List ℚ) :
    (waveformOf pcm).length = numChunks pcm.length ∧
    (pcm.length ≤ 1000 → (waveformOf pcm).length = min 1000 pcm.length) ∧
    (∀ i, i < numChunks pcm.length →
      (waveformOf pcm).getD i 0 = peakOf (chunkOf pcm i) ∧
      (∀ x ∈ chunkOf pcm i, |x| ≤ peakOf (chunkOf pcm i)) ∧
      (peakOf (chunkOf pcm i) = 0 ∨
        ∃ x ∈ chunkOf pcm i, peakOf (chunkOf pcm i) = |x|)) := by
  have hlen : (waveformOf pcm).length = numChunks pcm.length := by
    simp [waveformOf]
  refine ⟨hlen, ?_, ?_⟩
  · intro h
    rw [hlen, numChunks_of_le_1000 _ h]
    omega
  · intro i hi
    refine ⟨?_, fun x hx => foldl_max_abs_le _ 0 x hx, foldl_max_abs_attained _ 0⟩
    simp [waveformOf, hi]

/-- Witness for C5 (amended): the 3-sample buffer `[1/2, -2, 1]` has 3 chunks
of size 1 and the properties hold of its second entry. -/
theorem waveform_amended_witness :
    1 < numChunks pcm5.length ∧
    ((waveformOf pcm5).getD 1 0 = peakOf (chunkOf pcm5 1) ∧
     (∀ x ∈ chunkOf pcm5 1, |x| ≤ peakOf (chunkOf pcm5 1)) ∧
     (peakOf (chunkOf pcm5 1) = 0 ∨
       ∃ x ∈ chunkOf pcm5 1, peakOf (chunkOf pcm5 1) = |x|)) :=
  ⟨by decide, (waveform_amended pcm5).2.2 1 (by decide)⟩

/-- C5 counterexample: a 1500-sample buffer gets chunk size
`max(1, ⌊1500/1000⌋) = 1` and hence 1500 waveform entries, not
`min(1000, 1500) = 1000` as the claim states. -/
theorem waveform_count_counterexample :
    (waveformOf (List.replicate 1500 (0 : ℚ))).length = 1500 ∧
    (1500 : Nat) ≠ min 1000 1500 := by
  constructor
  · unfold waveformOf
    rw [List.length_map, List.length_range, List.length_replicate]
    decide
  · omega

/-- C7 (amended): `clear-loop` and both `loop-shift` operations preserve
`0 ≤ loopStart ≤ loopEnd ≤ total`; `set-loop-start` and `set-loop-end` keep
the written bound within `[0, total]` whenever the cursor is, but they do
*not* preserve `loopStart ≤ loopEnd` (see the counterexample: the stored
value is the raw cursor, unchecked against the other bound). -/
theorem loop_ops_amended (total cursor : Nat) (st : LoopBounds)
    (hinv : loopInv total st) (hc : cursor ≤ total) :
    loopInv total (clearLoop total st) ∧
    loopInv total (loopShiftLeft st) ∧
    loopInv total (loopShiftRight total st) ∧
    (setLoopStart cursor st).loop_start ≤ total ∧
    (setLoopEnd cursor st).loop_end ≤ total := by
  obtain ⟨h1, h2⟩ := hinv
  refine ⟨⟨Nat.zero_le _, Nat.le_refl _⟩, ?_, ?_, hc, hc⟩
  · simp only [loopInv, loopShiftLeft]
    omega
  · simp only [loopInv, loopShiftRight]
    omega

/-- Witness for C7 (amended) on the loop `[2, 5]` with total 10, cursor 7. -/
theorem loop_ops_amended_witness :
    (loopInv 10 (⟨2, 5⟩ : LoopBounds) ∧ 7 ≤ 10) ∧
    (loopInv 10 (clearLoop 10 (⟨2, 5⟩ : LoopBounds)) ∧
     loopInv 10 (loopShiftLeft (⟨2, 5⟩ : LoopBounds)) ∧
     loopInv 10 (loopShiftRight 10 (⟨2, 5⟩ : LoopBounds)) ∧
     (setLoopStart 7 (⟨2, 5⟩ : LoopBounds)).loop_start ≤ 10 ∧
     (setLoopEnd 7 (⟨2, 5⟩ : LoopBounds)).loop_end ≤ 10) :=
  ⟨⟨by decide, by omega⟩, loop_ops_amended 10 7 ⟨2, 5⟩ (by decide) (by omega)⟩

/-- C7 counterexample: from the invariant-satisfying bounds `[0, 0]` with
total 10 (reachable: after a load, press `]` at cursor 0, seek to 4), the
set-loop-start operation at cursor 4 stores `loopStart = 4 > 0 = loopEnd`,
violating the invariant. -/
theorem loop_inv_counterexample :
    loopInv 10 (⟨0, 0⟩ : LoopBounds) ∧
    ¬ loopInv 10 (setLoopStart 4 (⟨0, 0⟩ : LoopBounds)) := by
  decide

/-- C8: the cursor stored by any waveform seek — click or drag, at any
fractional position `p` and any buffer length — is a multiple of the
published channel count (both seek paths align `val` down by
`val % channels.max(1)` before storing). -/
theorem seek_cursor_aligned (p : ℚ) (total channels : Nat) (h : 0 < channels) :
    channels ∣ seekTarget p total channels := by
  have hmax : max channels 1 = channels := by omega
  simp only [seekTarget, hmax]
  generalize (⌊(min (max p 0) 1) * (total : ℚ)⌋).toNat = val
  have hdm := Nat.div_add_mod val channels
  exact ⟨val / channels, by omega⟩

/-- Witness for C8 at `p = 1/3`, a 10-sample buffer and 2 channels. -/
theorem seek_cursor_aligned_witness :
    0 < 2 ∧ 2 ∣ seekTarget (1/3) 10 2 :=
  ⟨by omega, seek_cursor_aligned (1/3) 10 2 (by omega)⟩

end Reh
